import Mathlib

/-!
# Verification of the html2pdf service

Shallow embedding of the html2pdf service (an Express router, a
Puppeteer-based render adapter `generatePdf`, and a Ghostscript-based
compression adapter `compressPdfBuffer`), together with theorems settling
the specification claims.

JavaScript numbers are modelled as `Option ℚ`: `none` is `NaN`, `some q`
a finite numeric value (the service never manipulates infinities).
Byte buffers are `List Nat`.  Asynchronous effects (browser steps,
subprocess events) are modelled by explicit outcome records supplied as
parameters, and each handler is a pure function of its inputs and of those
outcomes, returning its result together with the observable calls/events
it performed.
-/

namespace Html2Pdf

/-- A JavaScript number: `none` is `NaN`, `some q` a finite value. -/
abbrev JSNum := Option ℚ

/-- JavaScript `Math.min(a, b)`: `NaN` if either argument is `NaN`. -/
def jsMin (a b : JSNum) : JSNum :=
  match a, b with
  | some x, some y => some (min x y)
  | _, _ => none

/-- JavaScript `Math.max(a, b)`: `NaN` if either argument is `NaN`. -/
def jsMax (a b : JSNum) : JSNum :=
  match a, b with
  | some x, some y => some (max x y)
  | _, _ => none

/-- compressutil.js line 17: `dpi = Math.max(10, Math.min(600, dpi))`. -/
def clampDpi (dpi : JSNum) : JSNum :=
  jsMax (some 10) (jsMin (some 600) dpi)

/-- compressutil.js line 18: `jpegQuality = Math.max(1, Math.min(100, jpegQuality))`. -/
def clampQuality (jpegQuality : JSNum) : JSNum :=
  jsMax (some 1) (jsMin (some 100) jpegQuality)

/-- JavaScript number-to-string coercion as used in the template literals of
the Ghostscript argument list.  `NaN` prints as `"NaN"`; an integral value
prints as its decimal integer form.  (The service only ever reaches this
with integers or `NaN`: `parseInt` results, integer defaults, and clamps of
those; the non-integral branch is a placeholder.) -/
def jsNumToString (n : JSNum) : String :=
  match n with
  | none => "NaN"
  | some q => if q.den = 1 then toString q.num else toString q

/-- compressutil.js lines 26-48: the Ghostscript argument list, built from
the (already clamped) dpi and jpegQuality values. -/
def gsArgs (dpi jpegQuality : JSNum) : List String :=
  [ "-q"
  , "-dSAFER"
  , "-sDEVICE=pdfwrite"
  , "-dDetectDuplicateImages=true"
  , "-dCompatibilityLevel=1.4"
  , "-dEmbedAllFonts=true"
  , "-dSubsetFonts=true"
  , "-dColorImageDownsampleType=/Bicubic"
  , "-dGrayImageDownsampleType=/Bicubic"
  , "-dMonoImageDownsampleType=/Bicubic"
  , "-dDownsampleColorImages=true"
  , "-dDownsampleGrayImages=true"
  , "-dDownsampleMonoImages=true"
  , "-dColorImageResolution=" ++ jsNumToString dpi
  , "-dGrayImageResolution=" ++ jsNumToString dpi
  , "-dMonoImageResolution=" ++ jsNumToString dpi
  , "-dJPEGQuality=" ++ jsNumToString jpegQuality
  , "-dNOPAUSE"
  , "-dBATCH"
  , "-sOutputFile=-"
  , "-" ]

/-- A `spawn(command, args)` invocation together with the data written to
the child's standard input. -/
structure SpawnCall where
  command : String
  args : List String
  stdinData : List Nat
deriving DecidableEq

/-- compressutil.js lines 16-56: the subprocess invocation performed by
`compressPdfBuffer(pdfBuffer, dpi = 150, jpegQuality = 95)`.  The two
optional arguments are `none` when the caller omitted them (JavaScript
`undefined`), in which case the declared defaults 150 and 95 apply; the
values are then clamped before the argument list is built, and the whole
input buffer is written to stdin. -/
def compressSpawnCall (pdfBuffer : List Nat) (dpiArg jpegQualityArg : Option JSNum) :
    SpawnCall :=
  let dpi := clampDpi (dpiArg.getD (some 150))
  let jpegQuality := clampQuality (jpegQualityArg.getD (some 95))
  { command := "gs", args := gsArgs dpi jpegQuality, stdinData := pdfBuffer }

/-- How the spawned Ghostscript process settles the promise of
`compressPdfBuffer` (compressutil.js lines 50-78): either the `error`
event fires (the process could not be spawned), or the `close` event fires
with an exit code (`none` models Node's `null` exit code after a signal
kill) after having delivered the listed stdout chunks (in arrival order)
and stderr chunks. -/
inductive GsOutcome where
  | spawnError (message : String)
  | closed (exitCode : Option Int) (stdoutChunks : List (List Nat)) (stderrChunks : List String)
deriving DecidableEq

/-- JavaScript string interpolation of the `close` event's exit code. -/
def exitCodeToString (exitCode : Option Int) : String :=
  match exitCode with
  | none => "null"
  | some k => toString k

/-- compressutil.js lines 50-78: the settlement of the promise returned by
`compressPdfBuffer`.  The `error` handler rejects with a spawn-failure
message; the `close` handler resolves with `Buffer.concat(outputChunks)`
exactly when the exit code is `0`, and otherwise rejects with a message
that interpolates the exit code.  The stderr handler only logs. -/
def compressResult (outcome : GsOutcome) : Except String (List Nat) :=
  match outcome with
  | .spawnError message =>
      .error ("Failed to execute Ghostscript: " ++ message)
  | .closed exitCode stdoutChunks _ =>
      if exitCode = some 0 then
        .ok stdoutChunks.flatten
      else
        .error ("Ghostscript process exited with code " ++ exitCodeToString exitCode ++
          ". Check the input PDF or Ghostscript configuration.")

/-- Predicate: `sub` occurs as a contiguous substring of `s`. -/
def strContainsSub (s sub : String) : Prop :=
  ∃ pre suf, pre ++ sub ++ suf = s

/-- Test whether `pat` occurs as a contiguous sublist of `l` (JavaScript
`String.prototype.includes` over the character lists). -/
def listContains (pat : List Char) : List Char → Bool
  | [] => pat.isEmpty
  | c :: rest => pat.isPrefixOf (c :: rest) || listContains pat rest

/-- JavaScript `s.includes(pat)`. -/
def jsIncludes (s pat : String) : Bool :=
  listContains pat.toList s.toList

/-- JavaScript `s.indexOf(pat)` over character lists: index of the first
occurrence of `pat`, `-1` if there is none. -/
def listIndexOfSub (pat : List Char) : List Char → Int
  | [] => if pat.isEmpty then 0 else -1
  | c :: rest =>
      if pat.isPrefixOf (c :: rest) then 0
      else
        let r := listIndexOfSub pat rest
        if r = -1 then -1 else r + 1

/-- JavaScript `s.indexOf(pat)`. -/
def jsIndexOf (s pat : String) : Int :=
  listIndexOfSub pat.toList s.toList

/-- generator.js line 206: `if (url.indexOf('http') !== 0) url =
`http://` + url`. -/
def normalizeUrl (url : String) : String :=
  if jsIndexOf url "http" ≠ 0 then "http://" ++ url else url

/-- The whitespace characters relevant to JavaScript string trimming in
this model (space, tab, newline, carriage return). -/
def isJsWhitespace (c : Char) : Bool :=
  c = ' ' || c = '\t' || c = '\n' || c = '\r'

/-- Value of a list of decimal digit characters. -/
def digitsToNat (ds : List Char) : Nat :=
  ds.foldl (fun acc c => acc * 10 + (c.toNat - '0'.toNat)) 0

/-- JavaScript `parseInt(s, 10)`: skip leading whitespace, read an optional
sign and then the longest leading run of decimal digits; `NaN` when that
run is empty. -/
def jsParseInt10 (s : String) : JSNum :=
  let t := s.toList.dropWhile isJsWhitespace
  let core : List Char → JSNum := fun l =>
    let ds := l.takeWhile Char.isDigit
    if ds.isEmpty then none else some (digitsToNat ds : ℚ)
  match t with
  | '-' :: rest => (core rest).map (fun q => -q)
  | '+' :: rest => core rest
  | _ => core t

/-- JavaScript `ToNumber` on a string, restricted to the decimal literals
this service can meet: optional sign, digits, optional fractional digits;
the empty (or all-whitespace) string is `0`; anything else — in
particular `"true"` — is `NaN`.  (Hex, exponent and `Infinity` forms are
outside the model.) -/
def jsStringToNumber (s : String) : JSNum :=
  let t := (s.toList.dropWhile isJsWhitespace).reverse.dropWhile isJsWhitespace |>.reverse
  let unsignedCore : List Char → JSNum := fun l =>
    let intDigits := l.takeWhile Char.isDigit
    let rest := l.drop intDigits.length
    match rest with
    | [] => if intDigits.isEmpty then none else some (digitsToNat intDigits : ℚ)
    | '.' :: fracPart =>
        let fracDigits := fracPart.takeWhile Char.isDigit
        if fracPart.drop fracDigits.length ≠ [] then none
        else if intDigits.isEmpty ∧ fracDigits.isEmpty then none
        else some ((digitsToNat intDigits : ℚ) +
          (digitsToNat fracDigits : ℚ) / ((10 : ℚ) ^ fracDigits.length))
    | _ => none
  match t with
  | [] => some 0
  | '-' :: rest => (unsignedCore rest).map (fun q => -q)
  | '+' :: rest => unsignedCore rest
  | _ => unsignedCore t

/-- A JavaScript value of the shapes a JSON request body can put into the
fields this service reads (objects/arrays are not needed by any claim and
are outside the model). -/
inductive JSVal where
  | undef
  | null
  | bool (b : Bool)
  | num (n : JSNum)
  | str (s : String)
deriving DecidableEq

/-- JavaScript `ToNumber` on the modelled values. -/
def JSVal.toNumber : JSVal → JSNum
  | .undef => none
  | .null => some 0
  | .bool b => some (if b then 1 else 0)
  | .num n => n
  | .str s => jsStringToNumber s

/-- JavaScript loose equality `v == true`: the boolean `true` is coerced
to the number `1`, and the comparison proceeds numerically (`null` and
`undefined` compare unequal to every number, which the `NaN`/`0` images
under `toNumber` reproduce on this value subset). -/
def looseEqTrue (v : JSVal) : Bool :=
  match v with
  | .undef => false
  | .null => false
  | _ => match v.toNumber with
         | some q => q == 1
         | none => false

/-- JavaScript falsiness of a value (`!v`). -/
def jsFalsy (v : JSVal) : Bool :=
  match v with
  | .undef => true
  | .null => true
  | .bool b => !b
  | .num n => match n with
              | none => true
              | some q => q == 0
  | .str s => s == ""

/-- A JSON value, as carried by an interception rule's `apiBody`.
Numbers are restricted to integers (sufficient for the mock payloads the
claims mention). -/
inductive Json where
  | null
  | bool (b : Bool)
  | num (n : Int)
  | str (s : String)
  | arr (elems : List Json)
  | obj (fields : List (String × Json))

/-- Escaping of one character inside a JSON string literal (quotes,
backslashes and the common control characters; `JSON.stringify` escapes
further control characters that no claim exercises). -/
def jsonEscapeChar (c : Char) : String :=
  if c = '"' then "\\\""
  else if c = '\\' then "\\\\"
  else if c = '\n' then "\\n"
  else if c = '\r' then "\\r"
  else if c = '\t' then "\\t"
  else String.singleton c

/-- Escaping of a whole JSON string literal body. -/
def jsonEscape (s : String) : String :=
  s.toList.foldl (fun acc c => acc ++ jsonEscapeChar c) ""

mutual

/-- JavaScript `JSON.stringify` on the modelled JSON values. -/
def Json.stringify : Json → String
  | .null => "null"
  | .bool b => if b then "true" else "false"
  | .num n => toString n
  | .str s => "\"" ++ jsonEscape s ++ "\""
  | .arr elems => "[" ++ Json.stringifyElems elems ++ "]"
  | .obj fields => "\x7b" ++ Json.stringifyFields fields ++ "\x7d"

/-- Comma-separated serialization of a JSON array's elements. -/
def Json.stringifyElems : List Json → String
  | [] => ""
  | [x] => x.stringify
  | x :: y :: rest => x.stringify ++ "," ++ Json.stringifyElems (y :: rest)

/-- Comma-separated serialization of a JSON object's fields. -/
def Json.stringifyFields : List (String × Json) → String
  | [] => ""
  | [(k, v)] => "\"" ++ jsonEscape k ++ "\":" ++ v.stringify
  | (k, v) :: f :: rest =>
      "\"" ++ jsonEscape k ++ "\":" ++ v.stringify ++ "," ++
        Json.stringifyFields (f :: rest)

end

/-- An interception rule: requests whose URL contains `apiUrl` are mocked
with `apiBody`. -/
structure Rule where
  apiUrl : String
  apiBody : Json

/-- A browser cookie descriptor (only the fields needed to distinguish
cookies; further attributes are irrelevant to every claim). -/
structure Cookie where
  name : String
  value : String
deriving DecidableEq

/-- The `pdfOptions` object built by the POST /generateReport route:
`compression` is whatever JSON value the body carried (possibly
`undefined`), `dpi` and `quality` are numbers or `undefined`. -/
structure PdfOpts where
  compression : JSVal
  dpi : Option JSNum
  quality : Option JSNum

/-- What the `page.on('request', ...)` handler of generator.js lines
186-203 does with one intercepted request. -/
inductive InterceptOutcome where
  | respond (status : Nat) (contentType : String) (body : String)
  | continueRequest
  | skip
deriving DecidableEq

/-- generator.js lines 186-203: the request-interception handler.  If the
interception is already resolved it returns immediately; otherwise the
first rule whose `apiUrl` is contained in the request URL answers the
request with a synthetic 200 JSON response, and with no matching rule the
request is continued. -/
def interceptHandler (requests : List Rule) (handled : Bool)
    (interceptedUrl : String) : InterceptOutcome :=
  if handled then .skip
  else
    match requests.find? (fun r => jsIncludes interceptedUrl r.apiUrl) with
    | some m => .respond 200 "application/json; charset=utf-8" m.apiBody.stringify
    | none => .continueRequest

/-- The navigation wait conditions of `page.goto`. -/
inductive WaitCond where
  | networkidle0
  | domcontentloaded
deriving DecidableEq

/-- The observable page operations performed by one `generatePdf` call, in
program order. -/
inductive GenEvent where
  | setCookies (cookies : List Cookie)
  | enableInterception
  | waitForSelector (selector : String)
  | goto (url : String) (timeout : JSNum) (waitUntil : List WaitCond)
  | renderPdf (timeout : JSNum)
  | compress (dpi jpegQuality : Option JSNum)
  | closePage
deriving DecidableEq

/-- The outcomes of the awaited browser/subprocess steps inside one
`generatePdf` call: for each step that can throw, either `none` (it
succeeded) or `some message` (it threw); the PDF rendering either throws
or yields a buffer; the compression subprocess settles as a `GsOutcome`. -/
structure PageBehavior where
  setCookieErr : Option String
  interceptErr : Option String
  waitSelectorErr : Option String
  gotoErr : Option String
  pdfResult : Except String (List Nat)
  compressOutcome : GsOutcome

/-- Recognizer for the page-close event. -/
def GenEvent.isClose : GenEvent → Bool
  | .closePage => true
  | _ => false

/-- generator.js lines 173-238: one `generatePdf(url, requestId, timeout,
requests, cookies, waitForSelector, pdfOptions)` call, modelled from the
point where `browser.newPage()` has succeeded.  The function returns the
settled result together with the trace of page operations; each `catch`
path closes the page and rethrows, each success path closes the page and
returns, exactly as the three `page.close()` sites of the source do.
`cookies = none` models the `null` default (the `if (cookies)` guard);
`pdfOptions = none` models `null`/`undefined`. -/
def generatePdfRun (url : String) (timeout : JSNum) (requests : List Rule)
    (cookies : Option (List Cookie)) (waitForSelector : String)
    (pdfOptions : Option PdfOpts) (beh : PageBehavior) :
    Except String (List Nat) × List GenEvent :=
  let cookieEvs : List GenEvent :=
    match cookies with
    | some cs => [.setCookies cs]
    | none => []
  let cookieErr : Option String :=
    match cookies with
    | some _ => beh.setCookieErr
    | none => none
  match cookieErr with
  | some e => (.error e, cookieEvs ++ [.closePage])
  | none =>
    let interEvs : List GenEvent :=
      if requests.isEmpty then [] else [.enableInterception]
    let interErr : Option String :=
      if requests.isEmpty then none else beh.interceptErr
    match interErr with
    | some e => (.error e, cookieEvs ++ interEvs ++ [.closePage])
    | none =>
      let evs1 := cookieEvs ++ interEvs ++ [.waitForSelector waitForSelector]
      match beh.waitSelectorErr with
      | some e => (.error e, evs1 ++ [.closePage])
      | none =>
        let evs2 := evs1 ++
          [.goto (normalizeUrl url) timeout [.networkidle0, .domcontentloaded]]
        match beh.gotoErr with
        | some e => (.error e, evs2 ++ [.closePage])
        | none =>
          let evs3 := evs2 ++ [.renderPdf timeout]
          match beh.pdfResult with
          | .error e => (.error e, evs3 ++ [.closePage])
          | .ok pdfBuffer =>
            match pdfOptions with
            | some opts =>
              if looseEqTrue opts.compression then
                let evs4 := evs3 ++ [.compress opts.dpi opts.quality]
                match compressResult beh.compressOutcome with
                | .ok compressed => (.ok compressed, evs4 ++ [.closePage])
                | .error e => (.error e, evs4 ++ [.closePage])
              else
                (.ok pdfBuffer, evs3 ++ [.closePage])
            | none => (.ok pdfBuffer, evs3 ++ [.closePage])

/-- The JSON body of a POST /generateReport request, restricted to the
fields the handler destructures. -/
structure ReportBody where
  url : JSVal
  intercept : List Rule
  cookies : Option (List Cookie)
  waitForSelector : Option String
  compression : JSVal
  dpi : Option JSNum
  quality : Option JSNum
  timeout : Option JSNum

/-- index.js lines 65-82: the POST /generateReport handler.  It validates
the presence of a truthy `url` before any adapter call and otherwise
forwards to `generatePdf`, sending the buffer with status 200 on success
and 500 on failure.  The second component lists the `url` arguments of
the `generatePdf` invocations performed. -/
def generateReportRoute (body : ReportBody)
    (genResult : Except String (List Nat)) : Nat × List JSVal :=
  if jsFalsy body.url then (400, [])
  else
    match genResult with
    | .ok _ => (200, [body.url])
    | .error _ => (500, [body.url])

/-- The response of the POST /compressPdf/:dpi handler together with the
subprocess invocations it triggered. -/
structure CompressRouteResult where
  status : Nat
  spawnCalls : List SpawnCall
deriving DecidableEq

/-- index.js lines 89-130: the POST /compressPdf/:dpi handler.  All body
chunks are accumulated by the writable sink and concatenated once the
stream finishes; an empty buffer is rejected with 400 before any call to
`compressPdfBuffer`; otherwise `compressPdfBuffer(pdfBuffer, dpi)` is
invoked with the dpi parsed from the path via `parseInt(req.params.dpi,
10)` and the quality argument omitted, and the response is 200 on success
and 500 on failure. -/
def compressPdfRoute (chunks : List (List Nat)) (dpiParam : String)
    (oc : GsOutcome) : CompressRouteResult :=
  let pdfBuffer := chunks.flatten
  let dpi := jsParseInt10 dpiParam
  if pdfBuffer.length = 0 then
    { status := 400, spawnCalls := [] }
  else
    match compressResult oc with
    | .ok _ =>
        { status := 200
        , spawnCalls := [compressSpawnCall pdfBuffer (some dpi) none] }
    | .error _ =>
        { status := 500
        , spawnCalls := [compressSpawnCall pdfBuffer (some dpi) none] }

/-- Recognizer for the navigation event. -/
def GenEvent.isGoto : GenEvent → Bool
  | .goto _ _ _ => true
  | _ => false

/-- Modelled from the spec: a URL "has a scheme prefix" when it starts
with a nonempty alphanumeric scheme name followed by the separator
`"://"` (the code itself never computes this; it only tests whether the
string starts with `"http"`). -/
def specHasUriScheme (s : String) : Bool :=
  let l := s.toList
  let scheme := l.takeWhile (fun c => c.isAlphanum)
  !scheme.isEmpty && "://".toList.isPrefixOf (l.drop scheme.length)

/-!
## Theorems settling the claims
-/

/-- C1 (counterexample): the claim "for every resolution input r the used
value lies in [10,600]" fails on the code at the concrete input `NaN`:
JavaScript `Math.max(10, Math.min(600, NaN))` is `NaN`, so the value used
to build the Ghostscript arguments is `NaN`, which lies in no interval. -/
theorem c1_clamp_nan_counterexample :
    ¬ (∀ r : JSNum, ∃ x : ℚ, clampDpi r = some x ∧ 10 ≤ x ∧ x ≤ 600) := by
  intro h
  obtain ⟨x, hx, -, -⟩ := h none
  exact Option.noConfusion hx

/-- C1 (amended): for every numeric (non-`NaN`) resolution input `r` and
quality input `q` passed to `compressPdfBuffer`, the used resolution lies
in [10,600] and the used quality lies in [1,100], and the subprocess
argument list is built from exactly those clamped values; a `NaN` input,
however, survives the clamp as `NaN`. -/
theorem c1_clamp_in_range (r q : ℚ) (buf : List Nat) :
    (∃ x : ℚ, clampDpi (some r) = some x ∧ 10 ≤ x ∧ x ≤ 600)
    ∧ (∃ y : ℚ, clampQuality (some q) = some y ∧ 1 ≤ y ∧ y ≤ 100)
    ∧ (compressSpawnCall buf (some (some r)) (some (some q))).args
        = gsArgs (clampDpi (some r)) (clampQuality (some q))
    ∧ clampDpi none = none ∧ clampQuality none = none := by
  refine ⟨⟨max 10 (min 600 r), rfl, le_max_left _ _, ?_⟩,
    ⟨max 1 (min 100 q), rfl, le_max_left _ _, ?_⟩, rfl, rfl, rfl⟩
  · exact max_le (by norm_num) (min_le_left _ _)
  · exact max_le (by norm_num) (min_le_left _ _)

/-- C2: the promise of `compressPdfBuffer` resolves exactly when the
subprocess exits with code 0, and then with the concatenation of the
stdout chunks in arrival order; a non-zero exit rejects with a message
containing the exit code; a spawn failure rejects; and the stderr chunks
never influence the settlement. -/
theorem c2_compress_settlement (oc : GsOutcome) :
    ((∃ bytes, compressResult oc = .ok bytes) ↔
      ∃ outChunks errChunks, oc = .closed (some 0) outChunks errChunks)
    ∧ (∀ outChunks errChunks, oc = .closed (some 0) outChunks errChunks →
        compressResult oc = .ok outChunks.flatten)
    ∧ (∀ exitCode outChunks errChunks, oc = .closed exitCode outChunks errChunks →
        exitCode ≠ some 0 →
        ∃ m, compressResult oc = .error m ∧ strContainsSub m (exitCodeToString exitCode))
    ∧ (∀ msg, oc = .spawnError msg → ∃ m, compressResult oc = .error m)
    ∧ (∀ exitCode outChunks errChunks errChunks',
        compressResult (.closed exitCode outChunks errChunks)
          = compressResult (.closed exitCode outChunks errChunks')) := by
  have hindep : ∀ (exitCode : Option Int) (outChunks : List (List Nat))
      (errChunks errChunks' : List String),
      compressResult (.closed exitCode outChunks errChunks)
        = compressResult (.closed exitCode outChunks errChunks') := by
    intro e o _ _
    by_cases h : e = some 0 <;> simp [compressResult, h]
  cases oc with
  | spawnError msg =>
      refine ⟨?_, ?_, ?_, ?_, hindep⟩
      · simp [compressResult]
      · intro o e h; exact GsOutcome.noConfusion h
      · intro c o e h; exact GsOutcome.noConfusion h
      · intro m _; exact ⟨_, rfl⟩
  | closed exitCode outChunks errChunks =>
      refine ⟨?_, ?_, ?_, ?_, hindep⟩
      · by_cases h : exitCode = some 0 <;> simp [compressResult, h]
      · intro o e h
        obtain ⟨h1, h2, h3⟩ := GsOutcome.closed.inj h
        subst h1; subst h2
        simp [compressResult]
      · intro c o e h hne
        obtain ⟨h1, h2, h3⟩ := GsOutcome.closed.inj h
        subst h1
        refine ⟨"Ghostscript process exited with code " ++ exitCodeToString exitCode ++
            ". Check the input PDF or Ghostscript configuration.",
          by simp [compressResult, hne],
          "Ghostscript process exited with code ",
          ". Check the input PDF or Ghostscript configuration.", rfl⟩
      · intro m h; exact GsOutcome.noConfusion h

/-- Witness for C2 at concrete subprocess outcomes: a zero exit with
chunks `[1,2]` then `[3]` (and stderr noise) resolves with `[1,2,3]`; exit
code 1 rejects with a message containing `"1"`; a spawn failure rejects. -/
theorem c2_compress_settlement_witness :
    compressResult (.closed (some 0) [[1, 2], [3]] ["warning"]) = .ok [1, 2, 3]
    ∧ (∃ m, compressResult (.closed (some 1) [[1]] []) = .error m
        ∧ strContainsSub m (exitCodeToString (some 1)))
    ∧ (∃ m, compressResult (.spawnError "spawn gs ENOENT") = .error m) := by
  refine ⟨?_, ?_, ?_⟩
  · exact (c2_compress_settlement (.closed (some 0) [[1, 2], [3]] ["warning"])).2.1
      [[1, 2], [3]] ["warning"] rfl
  · exact (c2_compress_settlement (.closed (some 1) [[1]] [])).2.2.1
      (some 1) [[1]] [] rfl (by decide)
  · exact (c2_compress_settlement (.spawnError "spawn gs ENOENT")).2.2.2.1
      "spawn gs ENOENT" rfl

/-- C3: once `generatePdf` has acquired its page, every exit path —
success without compression, success with compression, and every failure
(cookie setup, interception setup, selector wait, navigation, PDF
rendering, compression) — closes the page exactly once, and the close is
the last page operation before the result is produced. -/
theorem c3_page_closed_exactly_once (url : String) (timeout : JSNum)
    (requests : List Rule) (cookies : Option (List Cookie))
    (waitForSelector : String) (pdfOptions : Option PdfOpts)
    (beh : PageBehavior) :
    ((generatePdfRun url timeout requests cookies waitForSelector pdfOptions beh).2.countP
        GenEvent.isClose) = 1
    ∧ ((generatePdfRun url timeout requests cookies waitForSelector pdfOptions beh).2.getLast?
        = some .closePage) := by
  obtain ⟨sc, ie, ws, ge, pr, co⟩ := beh
  rcases cookies with - | cs <;>
    rcases requests with - | ⟨r, rs⟩ <;>
    rcases sc with - | e1 <;>
    rcases ie with - | e2 <;>
    rcases ws with - | e3 <;>
    rcases ge with - | e4 <;>
    rcases pr with e5 | pdfBuf <;>
    rcases pdfOptions with - | opts <;>
    rcases hco : compressResult co with cb | ce <;>
    simp [generatePdfRun, hco, List.countP_append, List.countP_cons,
      GenEvent.isClose, List.getLast?] <;>
    by_cases hc : looseEqTrue opts.compression <;>
    simp [hc, hco, List.countP_append, List.countP_cons,
      GenEvent.isClose, List.getLast?]

/-- Auxiliary: `indexOf` never returns a negative index other than -1. -/
theorem listIndexOfSub_nonneg (pat : List Char) :
    ∀ l : List Char, listIndexOfSub pat l = -1 ∨ 0 ≤ listIndexOfSub pat l := by
  intro l
  induction l with
  | nil =>
      by_cases h : pat.isEmpty <;> simp [listIndexOfSub, h]
  | cons c rest ih =>
      by_cases h : pat.isPrefixOf (c :: rest)
      · right; simp [listIndexOfSub, h]
      · rcases ih with h1 | h1 <;> simp [listIndexOfSub, h, h1] <;> omega

/-- Auxiliary: `indexOf` returns 0 exactly on the matching initial
occurrence. -/
theorem listIndexOfSub_eq_zero_iff (pat l : List Char) :
    listIndexOfSub pat l = 0 ↔ pat.isPrefixOf l := by
  cases l with
  | nil =>
      by_cases h : pat.isEmpty
      · have : pat = [] := by
          cases pat with
          | nil => rfl
          | cons a t => simp [List.isEmpty] at h
        subst this
        simp [listIndexOfSub]
      · have : pat ≠ [] := by
          intro hh; subst hh; simp [List.isEmpty] at h
        cases pat with
        | nil => simp at this
        | cons a t => simp [listIndexOfSub, List.isPrefixOf]
  | cons c rest =>
      by_cases h : pat.isPrefixOf (c :: rest)
      · simp [listIndexOfSub, h]
      · rcases listIndexOfSub_nonneg pat rest with h1 | h1 <;>
          simp [listIndexOfSub, h, h1] <;> omega

/-- C4 (counterexample): the claim "a url lacking a scheme prefix is
prefixed with http:// and a url with a scheme is navigated to unchanged"
fails on the code in both directions: `"ftp://example.com"` has a scheme
prefix yet is rewritten to `"http://ftp://example.com"`, while
`"httpexample.com"` has no scheme prefix yet is navigated to unchanged,
because line 206 only tests `url.indexOf('http') !== 0`. -/
theorem c4_scheme_counterexample :
    specHasUriScheme "ftp://example.com" = true
    ∧ normalizeUrl "ftp://example.com" ≠ "ftp://example.com"
    ∧ normalizeUrl "ftp://example.com" = "http://ftp://example.com"
    ∧ specHasUriScheme "httpexample.com" = false
    ∧ normalizeUrl "httpexample.com" = "httpexample.com" := by
  refine ⟨by decide, by decide, by decide, by decide, by decide⟩

/-- C4 (amended): the url actually navigated to is the url prefixed with
the plain non-secure scheme `"http://"` exactly when the url does not
start with the four characters `"http"`, and the url itself otherwise. -/
theorem c4_normalize_characterization (url : String) :
    normalizeUrl url =
      (if "http".toList.isPrefixOf url.toList then url else "http://" ++ url) := by
  by_cases h : "http".toList.isPrefixOf url.toList
  · have h0 : jsIndexOf url "http" = 0 :=
      (listIndexOfSub_eq_zero_iff "http".toList url.toList).2 h
    have h' : ['h', 't', 't', 'p'] <+: url.data := by simpa using h
    simp [normalizeUrl, h0, h']
  · have h0 : jsIndexOf url "http" ≠ 0 := by
      intro hh
      exact h ((listIndexOfSub_eq_zero_iff "http".toList url.toList).1 hh)
    have h' : ¬ (['h', 't', 't', 'p'] <+: url.data) := by simpa using h
    simp [normalizeUrl, h0, h']

/-- Auxiliary: `find?` returns the head of the matching tail when nothing
earlier matches. -/
theorem find?_first_match {α : Type} (p : α → Bool) :
    ∀ (pre : List α) (r : α) (suf : List α), p r = true →
      (∀ x ∈ pre, p x = false) → (pre ++ r :: suf).find? p = some r := by
  intro pre
  induction pre with
  | nil =>
      intro r suf hr _
      simp [List.find?, hr]
  | cons a l ih =>
      intro r suf hr hpre
      have ha : p a = false := hpre a (by simp)
      have htail := ih r suf hr (fun x hx => hpre x (by simp [hx]))
      simp [List.find?, ha, htail]

/-- Auxiliary: a matching element guarantees `find?` finds something. -/
theorem find?_isSome_of_match {α : Type} (p : α → Bool) (l : List α) (x : α)
    (hx : x ∈ l) (hp : p x = true) : ∃ y, l.find? p = some y := by
  cases h : l.find? p with
  | some y => exact ⟨y, rfl⟩
  | none =>
      have := List.find?_eq_none.1 h x hx
      simp [hp] at this

/-- C5: with interception enabled and the request not yet handled, a
request whose URL contains the match substring of some rule is answered
with a synthetic status-200 JSON response whose body is the serialization
of the first matching rule's mock payload (so it never reaches the
network), and a request matching no rule is continued unmodified. -/
theorem c5_interception (requests : List Rule) (handled : Bool)
    (interceptedUrl : String) (hh : handled = false) :
    (∀ pre r suf, requests = pre ++ r :: suf →
        jsIncludes interceptedUrl r.apiUrl = true →
        (∀ r' ∈ pre, jsIncludes interceptedUrl r'.apiUrl = false) →
        interceptHandler requests handled interceptedUrl =
          .respond 200 "application/json; charset=utf-8" r.apiBody.stringify)
    ∧ (∀ r ∈ requests, jsIncludes interceptedUrl r.apiUrl = true →
        ∃ m : Rule, interceptHandler requests handled interceptedUrl =
          .respond 200 "application/json; charset=utf-8" m.apiBody.stringify)
    ∧ ((∀ r ∈ requests, jsIncludes interceptedUrl r.apiUrl = false) →
        interceptHandler requests handled interceptedUrl = .continueRequest) := by
  subst hh
  refine ⟨?_, ?_, ?_⟩
  · intro pre r suf hsplit hr hpre
    subst hsplit
    have := find?_first_match (fun r => jsIncludes interceptedUrl r.apiUrl)
      pre r suf hr hpre
    simp [interceptHandler, this]
  · intro r hr hp
    obtain ⟨m, hm⟩ := find?_isSome_of_match
      (fun r => jsIncludes interceptedUrl r.apiUrl) requests r hr hp
    exact ⟨m, by simp [interceptHandler, hm]⟩
  · intro hnone
    have : requests.find? (fun r => jsIncludes interceptedUrl r.apiUrl) = none :=
      List.find?_eq_none.2 (fun x hx => by simp [hnone x hx])
    simp [interceptHandler, this]

/-- Witness for C5: with the rule list of the spec's example, a request to
a URL containing "/api/x" is answered with the 200 JSON response whose
body serializes the mock payload, and a non-matching request continues. -/
theorem c5_interception_witness :
    interceptHandler [⟨"/api/x", .obj [("a", .num 1)]⟩] false "https://host/api/x?q=1"
      = .respond 200 "application/json; charset=utf-8" "\x7b\"a\":1\x7d"
    ∧ interceptHandler [⟨"/api/x", .obj [("a", .num 1)]⟩] false "https://host/other"
      = .continueRequest := by
  constructor
  · have h := (c5_interception [⟨"/api/x", .obj [("a", .num 1)]⟩] false
      "https://host/api/x?q=1" rfl).1 [] ⟨"/api/x", .obj [("a", .num 1)]⟩ [] rfl
      (by decide) (by intro r' hr'; exact absurd hr' (List.not_mem_nil r'))
    exact h.trans (by rfl)
  · exact (c5_interception [⟨"/api/x", .obj [("a", .num 1)]⟩] false
      "https://host/other" rfl).2.2 (by intro r hr; simp at hr; subst hr; decide)

set_option maxHeartbeats 2000000 in
/-- C6: in every `generatePdf` run, any navigation event is to the
normalized URL, uses the given timeout, and waits for both the
network-idle and DOM-content-loaded conditions; and whenever a navigation
occurs at all, the selector wait appears in the part of the trace that
lies strictly before the first navigation event — the wait completes
before navigation begins. -/
theorem c6_wait_before_navigation (url : String) (timeout : JSNum)
    (requests : List Rule) (cookies : Option (List Cookie))
    (waitForSelector : String) (pdfOptions : Option PdfOpts)
    (beh : PageBehavior) :
    (∀ u t w, GenEvent.goto u t w ∈
        (generatePdfRun url timeout requests cookies waitForSelector pdfOptions beh).2 →
      u = normalizeUrl url ∧ t = timeout
        ∧ w = [.networkidle0, .domcontentloaded])
    ∧ ((∃ u t w, GenEvent.goto u t w ∈
        (generatePdfRun url timeout requests cookies waitForSelector pdfOptions beh).2) →
      GenEvent.waitForSelector waitForSelector ∈
        ((generatePdfRun url timeout requests cookies waitForSelector pdfOptions beh).2.takeWhile
          (fun e => !e.isGoto))) := by
  obtain ⟨sc, ie, ws, ge, pr, co⟩ := beh
  rcases cookies with - | cs <;>
    rcases requests with - | ⟨r, rs⟩ <;>
    rcases sc with - | e1 <;>
    rcases ie with - | e2 <;>
    rcases ws with - | e3 <;>
    rcases ge with - | e4 <;>
    rcases pr with e5 | pdfBuf <;>
    rcases pdfOptions with - | opts <;>
    rcases hco : compressResult co with cb | ce <;>
    simp [generatePdfRun, hco, GenEvent.isGoto, List.takeWhile] <;>
    by_cases hc : looseEqTrue opts.compression <;>
    simp [hc, hco, GenEvent.isGoto, List.takeWhile]

/-- Witness for C6 on a concrete all-success run without cookies,
interception or compression: the navigation event carries the normalized
URL, the timeout and both wait conditions, and the selector wait lies in
the trace segment strictly before the first navigation. -/
theorem c6_wait_before_navigation_witness :
    ("http://example.com" = normalizeUrl "example.com"
      ∧ (some 70000 : JSNum) = some 70000
      ∧ ([WaitCond.networkidle0, WaitCond.domcontentloaded]
          = [WaitCond.networkidle0, WaitCond.domcontentloaded]))
    ∧ GenEvent.waitForSelector "body" ∈
        ((generatePdfRun "example.com" (some 70000) [] none "body" none
            ⟨none, none, none, none, .ok [1], .closed (some 0) [] []⟩).2.takeWhile
          (fun e => !e.isGoto)) := by
  have hmem : GenEvent.goto "http://example.com" (some 70000)
      [WaitCond.networkidle0, WaitCond.domcontentloaded] ∈
      (generatePdfRun "example.com" (some 70000) [] none "body" none
        ⟨none, none, none, none, .ok [1], .closed (some 0) [] []⟩).2 := by
    have : normalizeUrl "example.com" = "http://example.com" := by decide
    simp [generatePdfRun, this]
  constructor
  · exact (c6_wait_before_navigation "example.com" (some 70000) [] none "body" none
      ⟨none, none, none, none, .ok [1], .closed (some 0) [] []⟩).1
      "http://example.com" (some 70000)
      [WaitCond.networkidle0, WaitCond.domcontentloaded] hmem
  · exact (c6_wait_before_navigation "example.com" (some 70000) [] none "body" none
      ⟨none, none, none, none, .ok [1], .closed (some 0) [] []⟩).2
      ⟨"http://example.com", some 70000,
        [WaitCond.networkidle0, WaitCond.domcontentloaded], hmem⟩

/-- C7: a POST /generateReport request whose body lacks the `url` field
is answered with status 400 and `generatePdf` is never invoked, whatever
any render attempt would have produced. -/
theorem c7_missing_url_rejected (body : ReportBody)
    (genResult : Except String (List Nat)) (h : body.url = .undef) :
    generateReportRoute body genResult = (400, []) := by
  simp [generateReportRoute, h, jsFalsy]

/-- Witness for C7: the empty body `\x7b\x7d` (all fields absent) is
rejected with 400 and an empty invocation list. -/
theorem c7_missing_url_rejected_witness :
    generateReportRoute
      ⟨.undef, [], none, none, .undef, none, none, none⟩ (.ok [1]) = (400, []) :=
  c7_missing_url_rejected ⟨.undef, [], none, none, .undef, none, none, none⟩
    (.ok [1]) rfl

/-- C8: the POST /compressPdf/:dpi handler hands the compression adapter
the concatenation of all received body chunks (so the whole body is
buffered before dispatch), and an empty buffered body is answered with
status 400 with the adapter never invoked. -/
theorem c8_compress_route_buffers_and_rejects_empty (chunks : List (List Nat))
    (dpiParam : String) (oc : GsOutcome) :
    (∀ call ∈ (compressPdfRoute chunks dpiParam oc).spawnCalls,
        call.stdinData = chunks.flatten)
    ∧ (chunks.flatten = [] →
        (compressPdfRoute chunks dpiParam oc).status = 400
          ∧ (compressPdfRoute chunks dpiParam oc).spawnCalls = []) := by
  have heq : compressPdfRoute chunks dpiParam oc =
      (if chunks.flatten.length = 0 then { status := 400, spawnCalls := [] }
       else
        match compressResult oc with
        | .ok _ =>
            { status := 200
            , spawnCalls :=
                [compressSpawnCall chunks.flatten (some (jsParseInt10 dpiParam)) none] }
        | .error _ =>
            { status := 500
            , spawnCalls :=
                [compressSpawnCall chunks.flatten (some (jsParseInt10 dpiParam)) none] }) :=
    rfl
  constructor
  · intro call hcall
    rw [heq] at hcall
    by_cases h : chunks.flatten.length = 0
    · rw [if_pos h] at hcall
      simp at hcall
    · rw [if_neg h] at hcall
      rcases hr : compressResult oc with b | e <;> rw [hr] at hcall <;>
        simp at hcall <;> rw [hcall] <;> rfl
  · intro h
    have hl : chunks.flatten.length = 0 := by rw [h]; rfl
    rw [heq, if_pos hl]
    exact ⟨rfl, rfl⟩

/-- Witness for C8: a finished upload whose chunks concatenate to the
empty buffer is answered with 400 and no subprocess call. -/
theorem c8_compress_route_witness :
    ((compressPdfRoute [[]] "150" (.closed (some 0) [[1]] [])).status = 400
      ∧ (compressPdfRoute [[]] "150" (.closed (some 0) [[1]] [])).spawnCalls = []) :=
  (c8_compress_route_buffers_and_rejects_empty [[]] "150"
    (.closed (some 0) [[1]] [])).2 (by decide)

/-- C9: for a non-empty body, the route invokes `compressPdfBuffer` with
only the buffer and the `parseInt`-parsed path dpi, so the quality
argument is omitted and the subprocess always runs with the default JPEG
quality 95; and a non-numeric dpi segment parses to `NaN`, which the
clamp leaves as `NaN` rather than replacing it with an in-range value. -/
theorem c9_default_quality_and_nan_dpi (chunks : List (List Nat))
    (dpiParam : String) (oc : GsOutcome) (h : chunks.flatten ≠ []) :
    (compressPdfRoute chunks dpiParam oc).spawnCalls
      = [compressSpawnCall chunks.flatten (some (jsParseInt10 dpiParam)) none]
    ∧ (compressSpawnCall chunks.flatten (some (jsParseInt10 dpiParam)) none).args
      = gsArgs (clampDpi (jsParseInt10 dpiParam)) (some 95)
    ∧ "-dJPEGQuality=95"
      ∈ (compressSpawnCall chunks.flatten (some (jsParseInt10 dpiParam)) none).args
    ∧ jsParseInt10 "abc" = none
    ∧ clampDpi none = none := by
  have hq : clampQuality (some 95) = some 95 := by decide
  have hlen : ¬ chunks.flatten.length = 0 := by
    intro hc
    exact h (List.length_eq_zero.mp hc)
  refine ⟨?_, ?_, ?_, by decide, rfl⟩
  · have heq : compressPdfRoute chunks dpiParam oc =
        (if chunks.flatten.length = 0 then { status := 400, spawnCalls := [] }
         else
          match compressResult oc with
          | .ok _ =>
              { status := 200
              , spawnCalls :=
                  [compressSpawnCall chunks.flatten (some (jsParseInt10 dpiParam)) none] }
          | .error _ =>
              { status := 500
              , spawnCalls :=
                  [compressSpawnCall chunks.flatten (some (jsParseInt10 dpiParam)) none] }) :=
      rfl
    rw [heq, if_neg hlen]
    rcases hr : compressResult oc with b | e <;> rfl
  · show gsArgs (clampDpi (jsParseInt10 dpiParam)) (clampQuality (some 95))
      = gsArgs (clampDpi (jsParseInt10 dpiParam)) (some 95)
    rw [hq]
  · have h95 : "-dJPEGQuality=" ++ jsNumToString (some 95) = "-dJPEGQuality=95" := by
      decide
    show "-dJPEGQuality=95"
      ∈ gsArgs (clampDpi (jsParseInt10 dpiParam)) (clampQuality (some 95))
    rw [hq]
    simp [gsArgs, h95]

/-- Witness for C9 at the concrete non-numeric path segment "abc" with a
one-byte body. -/
theorem c9_default_quality_and_nan_dpi_witness :
    (compressPdfRoute [[1]] "abc" (.closed (some 0) [] [])).spawnCalls
      = [compressSpawnCall [1] (some (jsParseInt10 "abc")) none]
    ∧ (compressSpawnCall [1] (some (jsParseInt10 "abc")) none).args
      = gsArgs (clampDpi (jsParseInt10 "abc")) (some 95)
    ∧ "-dJPEGQuality=95" ∈ (compressSpawnCall [1] (some (jsParseInt10 "abc")) none).args
    ∧ jsParseInt10 "abc" = none
    ∧ clampDpi none = none := by
  have h := c9_default_quality_and_nan_dpi [[1]] "abc" (.closed (some 0) [] [])
    (by decide)
  simpa using h

set_option maxHeartbeats 2000000 in
/-- C10: on a run that reaches rendering successfully, the rendered
buffer is piped through the compression adapter exactly when `pdfOptions`
is non-null and its `compression` field is loosely equal (`==`) to the
boolean `true`; a truthy non-boolean value such as the string `"true"` is
not loosely equal to `true`, so it does not trigger compression and the
uncompressed buffer is returned. -/
theorem c10_compression_loose_equality (url : String) (timeout : JSNum)
    (requests : List Rule) (cookies : Option (List Cookie))
    (waitForSelector : String) (pdfOptions : Option PdfOpts)
    (beh : PageBehavior) (buf : List Nat)
    (h1 : beh.setCookieErr = none) (h2 : beh.interceptErr = none)
    (h3 : beh.waitSelectorErr = none) (h4 : beh.gotoErr = none)
    (h5 : beh.pdfResult = .ok buf) :
    ((∃ d q, GenEvent.compress d q ∈
        (generatePdfRun url timeout requests cookies waitForSelector pdfOptions beh).2) ↔
      ∃ opts, pdfOptions = some opts ∧ looseEqTrue opts.compression = true)
    ∧ (∀ opts, pdfOptions = some opts → looseEqTrue opts.compression = false →
        (generatePdfRun url timeout requests cookies waitForSelector pdfOptions beh).1
          = .ok buf)
    ∧ (pdfOptions = none →
        (generatePdfRun url timeout requests cookies waitForSelector pdfOptions beh).1
          = .ok buf)
    ∧ looseEqTrue (.str "true") = false := by
  have hstr : looseEqTrue (.str "true") = false := by decide
  obtain ⟨sc, ie, ws, ge, pr, co⟩ := beh
  simp only at h1 h2 h3 h4 h5
  subst h1; subst h2; subst h3; subst h4; subst h5
  rcases cookies with - | cs <;>
    rcases requests with - | ⟨r, rs⟩ <;>
    rcases pdfOptions with - | opts <;>
    rcases hco : compressResult co with cb | ce <;>
    simp [generatePdfRun, hco, hstr] <;>
    by_cases hc : looseEqTrue opts.compression <;>
    simp [generatePdfRun, hc, hco, hstr]

/-- Witness for C10 on a concrete successful run: with
`compression = "true"` (a string) no compression event occurs and the
rendered buffer comes back unchanged. -/
theorem c10_compression_loose_equality_witness :
    ((∃ d q, GenEvent.compress d q ∈
        (generatePdfRun "example.com" (some 70000) [] none "body"
          (some ⟨.str "true", none, none⟩)
          ⟨none, none, none, none, .ok [1, 2], .closed (some 0) [] []⟩).2) ↔
      ∃ opts : PdfOpts, some ⟨JSVal.str "true", none, none⟩ = some opts
        ∧ looseEqTrue opts.compression = true)
    ∧ (generatePdfRun "example.com" (some 70000) [] none "body"
        (some ⟨.str "true", none, none⟩)
        ⟨none, none, none, none, .ok [1, 2], .closed (some 0) [] []⟩).1
      = .ok [1, 2] := by
  have h := c10_compression_loose_equality "example.com" (some 70000) [] none "body"
    (some ⟨.str "true", none, none⟩)
    ⟨none, none, none, none, .ok [1, 2], .closed (some 0) [] []⟩ [1, 2]
    rfl rfl rfl rfl rfl
  exact ⟨h.1, h.2.1 ⟨.str "true", none, none⟩ rfl (by decide)⟩

end Html2Pdf
